import Mathlib

/-!
Verification of the OAuth 2.1 authorization-server core of things-cloud-mcp.

The Go source (oauth.go and the UserManager portion of main.go) is shallowly
embedded below.  Go maps become association lists with overwrite-on-insert
semantics; `time.Now()` becomes an explicit `now : Int` (Unix seconds);
calls into the Go standard library's crypto/encoding primitives
(HMAC-SHA256, SHA-256, base64url, JSON) are abstracted as function
parameters (`hash`, `mac`, `encode`, `decode`), since those primitives live
outside the repository; random generation (`randomString`) becomes an
explicitly passed fresh string.  Fallible paths return explicit error
results mirroring the Go error strings.
-/

namespace ThingsCloudMCP

/-- Association-list lookup, modelling a Go map read `m[k]`. -/
def mapLookup {α : Type} (l : List (String × α)) (k : String) : Option α :=
  match l with
  | [] => none
  | (k1, v) :: rest => if k1 = k then some v else mapLookup rest k

/-- Association-list insert, modelling a Go map write `m[k] = v`
(the new binding shadows any older one for `mapLookup`). -/
def mapInsert {α : Type} (l : List (String × α)) (k : String) (v : α) :
    List (String × α) :=
  (k, v) :: l

/-- Association-list key removal, modelling Go `delete(m, k)`. -/
def mapErase {α : Type} (l : List (String × α)) (k : String) :
    List (String × α) :=
  l.filter (fun p => p.1 != k)

theorem mapLookup_cons {α : Type} (k1 : String) (v : α) (rest : List (String × α))
    (k : String) :
    mapLookup ((k1, v) :: rest) k = if k1 = k then some v else mapLookup rest k := rfl

theorem mapErase_cons {α : Type} (p : String × α) (rest : List (String × α))
    (k : String) :
    mapErase (p :: rest) k =
      if p.1 = k then mapErase rest k else p :: mapErase rest k := by
  simp only [mapErase, List.filter_cons]
  by_cases h : p.1 = k <;> simp [h]

theorem mapLookup_insert_self {α : Type} (l : List (String × α)) (k : String) (v : α) :
    mapLookup (mapInsert l k v) k = some v := by
  simp [mapInsert, mapLookup]

theorem mapLookup_insert_ne {α : Type} (l : List (String × α)) (k k1 : String) (v : α)
    (h : k ≠ k1) : mapLookup (mapInsert l k v) k1 = mapLookup l k1 := by
  simp [mapInsert, mapLookup, h]

theorem mapLookup_erase_self {α : Type} (l : List (String × α)) (k : String) :
    mapLookup (mapErase l k) k = none := by
  induction l with
  | nil => rfl
  | cons p rest ih =>
    rw [mapErase_cons]
    by_cases h : p.1 = k
    · simpa [h] using ih
    · obtain ⟨k1, v⟩ := p
      simp only at h
      rw [if_neg h, mapLookup_cons, if_neg h]
      exact ih

theorem mapLookup_erase_ne {α : Type} (l : List (String × α)) (k k1 : String)
    (h : k ≠ k1) : mapLookup (mapErase l k) k1 = mapLookup l k1 := by
  induction l with
  | nil => rfl
  | cons p rest ih =>
    rw [mapErase_cons]
    obtain ⟨k2, v⟩ := p
    by_cases hp : k2 = k
    · have hk1 : k2 ≠ k1 := fun e => h (hp ▸ e)
      rw [if_pos hp, mapLookup_cons, if_neg hk1]
      exact ih
    · simp only at hp
      rw [if_neg hp, mapLookup_cons, mapLookup_cons]
      by_cases hk1 : k2 = k1
      · simp [hk1]
      · rw [if_neg hk1, if_neg hk1]
        exact ih

/-! ## JWT claims model

Go decodes the JWT payload into `map[string]any`; JSON strings arrive as Go
`string` and JSON numbers as `float64`.  The claims the server ever writes
or reads are strings and integral timestamps, so a claim value is modelled
as a string or an integer. -/

/-- Value of one JWT claim: a JSON string or a JSON number. -/
inductive ClaimVal where
  | str (s : String)
  | num (n : Int)
deriving DecidableEq, Repr

/-- Decoded JWT claims, modelling Go `map[string]any`. -/
abbrev Claims := List (String × ClaimVal)

/-- Splits a character list on every `'.'` (`strings.Split` on "."). -/
def splitOnDot : List Char → List (List Char)
  | [] => [[]]
  | c :: rest =>
    if c = '.' then [] :: splitOnDot rest
    else
      match splitOnDot rest with
      | [] => [[c]]
      | g :: gs => (c :: g) :: gs

/-- Go `strings.SplitN(s, ".", 3)`: split on the first two dots, keeping any
further dots inside the third part. -/
def splitN3 (s : String) : List String :=
  match (splitOnDot s.data).map String.mk with
  | a :: b :: c :: rest => [a, b, String.intercalate "." (c :: rest)]
  | parts => parts

/-- Go `strings.Contains(s, string(c))` for a one-character needle. -/
def stringContains (s : String) (c : Char) : Bool :=
  s.data.contains c

/-- Embeds `verifyPKCE` from oauth.go.  `hash` stands for
`base64url(SHA-256(·))`, abstracted since the primitive is Go stdlib. -/
def verifyPKCE (hash : String → String) (codeVerifier codeChallenge : String) : Bool :=
  hash codeVerifier == codeChallenge

/-- Base64url encoding of the fixed JWT header written by `createJWT`. -/
def jwtHeader : String := "eyJhbGciOiJIUzI1NiIsInR5cCI6IkpXVCJ9"

/-- Embeds `OAuthServer.createJWT` from oauth.go.  `mac` stands for
`base64url(HMAC-SHA256(secret, ·))` and `encode` for
`base64url(json.Marshal(·))`. -/
def createJWT (mac : String → String) (encode : Claims → String)
    (claims : Claims) : String :=
  let signingInput := jwtHeader ++ "." ++ encode claims
  signingInput ++ "." ++ mac signingInput

/-- Embeds `OAuthServer.parseJWT` from oauth.go: three-part split, signature
check, payload decode, then the expiry check (applied only when the decoded
claims hold a numeric `exp`).  `decode` stands for base64url decoding
followed by JSON unmarshalling; its `none` collapses the two Go payload
errors into one. -/
def parseJWT (mac : String → String) (decode : String → Option Claims)
    (now : Int) (tokenStr : String) : Except String Claims :=
  match splitN3 tokenStr with
  | [p0, p1, p2] =>
    let signingInput := p0 ++ "." ++ p1
    if p2 ≠ mac signingInput then
      .error "invalid JWT signature"
    else
      match decode p1 with
      | none => .error "invalid JWT payload"
      | some claims =>
        match mapLookup claims "exp" with
        | some (.num exp) =>
          if now > exp then .error "JWT expired" else .ok claims
        | _ => .ok claims
  | _ => .error "invalid JWT format"

/-- Embeds `OAuthServer.ResolveBearer` from oauth.go: parse and verify the
token, extract `sub`, and look up the stored backend credentials. -/
def ResolveBearer (mac : String → String) (decode : String → Option Claims)
    (now : Int) (credentials : List (String × String)) (token : String) :
    Except String (String × String) :=
  match parseJWT mac decode now token with
  | .error e => .error ("invalid token: " ++ e)
  | .ok claims =>
    match mapLookup claims "sub" with
    | some (.str email) =>
      if email = "" then .error "invalid token: missing subject"
      else
        match mapLookup credentials email with
        | some password => .ok (email, password)
        | none => .error "no credentials found for user"
    | _ => .error "invalid token: missing subject"

/-! ## OAuth server state -/

/-- Embeds `OAuthClient` from oauth.go (the fields the handlers consult). -/
structure OAuthClient where
  clientID : String
  clientName : String
  redirectURIs : List String
deriving DecidableEq, Repr

/-- Embeds `AuthCode` from oauth.go. -/
structure AuthCode where
  code : String
  clientID : String
  redirectURI : String
  email : String
  password : String
  codeChallenge : String
  expiresAt : Int
  used : Bool
deriving DecidableEq, Repr

/-- Embeds `RefreshToken` from oauth.go. -/
structure RefreshToken where
  token : String
  email : String
  password : String
  clientID : String
  expiresAt : Int
deriving DecidableEq, Repr

/-- Embeds the mutable maps of `OAuthServer` from oauth.go. -/
structure OAuthServer where
  clients : List (String × OAuthClient)
  authCodes : List (String × AuthCode)
  refreshTokens : List (String × RefreshToken)
  credentials : List (String × String)
deriving DecidableEq, Repr

/-- Form parameters of an `authorization_code` token request. -/
structure TokenRequest where
  code : String
  client_id : String
  redirect_uri : String
  code_verifier : String
deriving DecidableEq, Repr

/-- Body of a successful token response. -/
structure TokenResponse where
  access_token : String
  token_type : String
  expires_in : Nat
  refresh_token : String
  scope : String
deriving DecidableEq, Repr

/-- Outcome of a token-endpoint request: success JSON with HTTP status, or
an OAuth error JSON with HTTP status, error code and description. -/
inductive TokenResult where
  | ok (status : Nat) (resp : TokenResponse)
  | err (status : Nat) (code : String) (desc : String)
deriving DecidableEq, Repr

/-- The claims `handleAuthCodeGrant` and `handleRefreshTokenGrant` sign into
an access token. -/
def accessClaims (email base : String) (now : Int) : Claims :=
  [("sub", .str email), ("iss", .str base), ("exp", .num (now + 3600)),
   ("iat", .num now), ("scope", .str "things:manage")]

/-- Embeds `OAuthServer.handleAuthCodeGrant` from oauth.go.  `newRefreshTok`
is the fresh `randomString(32)` value and `base` the computed base URL. -/
def handleAuthCodeGrant (hash mac : String → String) (encode : Claims → String)
    (now : Int) (newRefreshTok base : String)
    (o : OAuthServer) (req : TokenRequest) : OAuthServer × TokenResult :=
  if req.code = "" ∨ req.client_id = "" ∨ req.redirect_uri = "" ∨ req.code_verifier = "" then
    (o, .err 400 "invalid_request"
      "missing required parameters: code, client_id, redirect_uri, code_verifier")
  else
    match mapLookup o.authCodes req.code with
    | none => (o, .err 400 "invalid_grant" "unknown authorization code")
    | some ac =>
      if ac.used then
        (o, .err 400 "invalid_grant" "authorization code already used")
      else if now > ac.expiresAt then
        (o, .err 400 "invalid_grant" "authorization code expired")
      else if ac.clientID ≠ req.client_id then
        (o, .err 400 "invalid_grant" "client_id mismatch")
      else if ac.redirectURI ≠ req.redirect_uri then
        (o, .err 400 "invalid_grant" "redirect_uri mismatch")
      else if ¬ verifyPKCE hash req.code_verifier ac.codeChallenge then
        (o, .err 400 "invalid_grant" "PKCE verification failed")
      else
        let o1 : OAuthServer :=
          { o with
            authCodes := mapInsert o.authCodes req.code { ac with used := true },
            credentials := mapInsert o.credentials ac.email ac.password }
        let accessToken := createJWT mac encode (accessClaims ac.email base now)
        let o2 : OAuthServer :=
          { o1 with
            refreshTokens := mapInsert o1.refreshTokens newRefreshTok
              { token := newRefreshTok, email := ac.email, password := ac.password,
                clientID := req.client_id, expiresAt := now + 2592000 } }
        (o2, .ok 200
          { access_token := accessToken, token_type := "Bearer", expires_in := 3600,
            refresh_token := newRefreshTok, scope := "things:manage" })

/-- Embeds `OAuthServer.handleRefreshTokenGrant` from oauth.go. -/
def handleRefreshTokenGrant (mac : String → String) (encode : Claims → String)
    (now : Int) (newRefreshTok base : String)
    (o : OAuthServer) (refreshTok : String) : OAuthServer × TokenResult :=
  if refreshTok = "" then
    (o, .err 400 "invalid_request" "missing refresh_token")
  else
    match mapLookup o.refreshTokens refreshTok with
    | none => (o, .err 400 "invalid_grant" "unknown refresh token")
    | some rt =>
      if now > rt.expiresAt then
        ({ o with refreshTokens := mapErase o.refreshTokens refreshTok },
         .err 400 "invalid_grant" "refresh token expired")
      else
        let o1 : OAuthServer :=
          { o with
            refreshTokens := mapErase o.refreshTokens refreshTok,
            credentials := mapInsert o.credentials rt.email rt.password }
        let accessToken := createJWT mac encode (accessClaims rt.email base now)
        let o2 : OAuthServer :=
          { o1 with
            refreshTokens := mapInsert o1.refreshTokens newRefreshTok
              { token := newRefreshTok, email := rt.email, password := rt.password,
                clientID := rt.clientID, expiresAt := now + 2592000 } }
        (o2, .ok 200
          { access_token := accessToken, token_type := "Bearer", expires_in := 3600,
            refresh_token := newRefreshTok, scope := "things:manage" })

/-! ## Authorization endpoint (POST) -/

/-- Parameters of a POST /authorize request: the forwarded query string
fields plus the login form body fields. -/
structure AuthorizeRequest where
  client_id : String
  redirect_uri : String
  state : String
  code_challenge : String
  email : String
  password : String
deriving DecidableEq, Repr

/-- Outcome of POST /authorize: a re-rendered login page (client display
name, error message) or the success page whose script sends the user agent
to `location`. -/
inductive AuthorizeResult where
  | loginPage (clientName : String) (errMsg : String)
  | successPage (location : String)
deriving DecidableEq, Repr

/-- Display name the error paths of `handleAuthorizePost` fetch from the
client registry (empty when the client is unknown). -/
def clientNameOf (o : OAuthServer) (clientID : String) : String :=
  match mapLookup o.clients clientID with
  | some c => c.clientName
  | none => ""

/-- Embeds `OAuthServer.handleAuthorizePost` from oauth.go.  `verify` stands
for the external `thingscloud.Client.Verify` credential check, `code` for
the fresh `randomString(32)` authorization code. -/
def handleAuthorizePost (verify : String → String → Bool) (now : Int)
    (code : String) (o : OAuthServer) (req : AuthorizeRequest) :
    OAuthServer × AuthorizeResult :=
  if req.email = "" ∨ req.password = "" then
    (o, .loginPage (clientNameOf o req.client_id) "Email and password are required.")
  else if ¬ verify req.email req.password then
    (o, .loginPage (clientNameOf o req.client_id) "Invalid Things Cloud credentials.")
  else
    let ac : AuthCode :=
      { code := code, clientID := req.client_id, redirectURI := req.redirect_uri,
        email := req.email, password := req.password,
        codeChallenge := req.code_challenge, expiresAt := now + 600, used := false }
    let o1 : OAuthServer :=
      { o with
        authCodes := mapInsert o.authCodes code ac,
        credentials := mapInsert o.credentials req.email req.password }
    let sep := if stringContains req.redirect_uri '?' then "&" else "?"
    (o1, .successPage (req.redirect_uri ++ sep ++ "code=" ++ code ++ "&state=" ++ req.state))

/-! ## UserManager session cache (main.go)

Sessions (`*ThingsMCP` instances) are modelled by their identity, a `Nat`.
`factory` stands for `NewThingsMCPForUser` (backend login + hydration);
it may fail, returning `none`. -/

/-- Embeds `UserManager.GetOrCreateUser` from main.go, run in isolation
(single caller): read-check, construct outside the lock, then the
write-locked double-check before inserting.  Returns the updated cache and
the session handed to the caller (`none` when construction fails). -/
def GetOrCreateUser (factory : String → String → Option Nat)
    (users : List (String × Nat)) (email password : String) :
    List (String × Nat) × Option Nat :=
  match mapLookup users email with
  | some t => (users, some t)
  | none =>
    match factory email password with
    | none => (users, none)
    | some t =>
      match mapLookup users email with
      | some existing => (users, some existing)
      | none => (mapInsert users email t, some t)

/-! ### Interleaving model of concurrent first access

For claim-level reasoning about N simultaneous `GetOrCreateUser` calls for
one unseen email, each caller is a thread running the body of
`GetOrCreateUser`.  A thread takes two atomic transitions, mirroring the
lock structure of the Go code: (1) the read-locked cache check, followed —
when it misses — by the unlocked construction (`NewThingsMCPForUser`,
which touches no shared state, so fusing it with the read-check loses no
observable interleaving); (2) the write-locked double-check that either
adopts the concurrently cached session, discarding its own build, or
installs its own build.  `builds` counts underlying construction calls,
and each construction yields a fresh session identity. -/

/-- Program counter of one concurrent `GetOrCreateUser` caller. -/
inductive ThreadState where
  | start
  | constructed (s : Nat)
  | done (s : Nat)
deriving DecidableEq, Repr

/-- Shared configuration: the cache slot for the one contended email, the
number of construction calls so far, and every caller's state. -/
structure CacheConfig where
  cache : Option Nat
  builds : Nat
  threads : List ThreadState
deriving DecidableEq, Repr

/-- One atomic transition of caller `i`. -/
def cacheStep (c : CacheConfig) (i : Nat) : CacheConfig :=
  match c.threads[i]? with
  | some .start =>
    match c.cache with
    | some s => { c with threads := c.threads.set i (.done s) }
    | none =>
      { c with threads := c.threads.set i (.constructed c.builds),
               builds := c.builds + 1 }
  | some (.constructed s) =>
    match c.cache with
    | some s0 => { c with threads := c.threads.set i (.done s0) }
    | none => { c with cache := some s, threads := c.threads.set i (.done s) }
  | _ => c

/-- Runs a schedule (a list of caller indices) from a configuration. -/
def cacheExec (c : CacheConfig) (sched : List Nat) : CacheConfig :=
  match sched with
  | [] => c
  | i :: rest => cacheExec (cacheStep c i) rest

/-- Initial configuration: empty cache, no construction calls, `n` callers
about to run `GetOrCreateUser` for the same unseen email. -/
def cacheInit (n : Nat) : CacheConfig :=
  { cache := none, builds := 0, threads := List.replicate n .start }

/-- Agreement invariant: every finished caller holds exactly the cached
session. -/
def doneAgree (c : CacheConfig) : Prop :=
  ∀ (i s : Nat), c.threads[i]? = some (ThreadState.done s) → c.cache = some s

theorem doneAgree_step (c : CacheConfig) (i : Nat) (h : doneAgree c) :
    doneAgree (cacheStep c i) := by
  have hintro : ∀ (j sj : Nat), (cacheStep c i).threads[j]? = some (ThreadState.done sj) →
      (cacheStep c i).cache = some sj := by
    intro j sj hj
    rcases hti : c.threads[i]? with _ | ts
    · simp only [cacheStep, hti] at hj ⊢
      exact h j sj hj
    · have hlen : i < c.threads.length := (List.getElem?_eq_some.mp hti).1
      cases ts with
      | start =>
        rcases hc : c.cache with _ | s
        · simp only [cacheStep, hti, hc] at hj ⊢
          by_cases hij : i = j
          · subst hij
            rw [List.getElem?_set_eq_of_lt _ hlen] at hj
            cases hj
          · rw [List.getElem?_set_ne hij] at hj
            have := h j sj hj
            rw [hc] at this
            cases this
        · simp only [cacheStep, hti, hc] at hj ⊢
          by_cases hij : i = j
          · subst hij
            rw [List.getElem?_set_eq_of_lt _ hlen] at hj
            cases hj
            rfl
          · rw [List.getElem?_set_ne hij] at hj
            have := h j sj hj
            rw [hc] at this
            exact this
      | constructed s =>
        rcases hc : c.cache with _ | s0
        · simp only [cacheStep, hti, hc] at hj ⊢
          by_cases hij : i = j
          · subst hij
            rw [List.getElem?_set_eq_of_lt _ hlen] at hj
            cases hj
            rfl
          · rw [List.getElem?_set_ne hij] at hj
            have := h j sj hj
            rw [hc] at this
            cases this
        · simp only [cacheStep, hti, hc] at hj ⊢
          by_cases hij : i = j
          · subst hij
            rw [List.getElem?_set_eq_of_lt _ hlen] at hj
            cases hj
            rfl
          · rw [List.getElem?_set_ne hij] at hj
            have := h j sj hj
            rw [hc] at this
            exact this
      | done s =>
        simp only [cacheStep, hti] at hj ⊢
        exact h j sj hj
  exact hintro

theorem doneAgree_exec (c : CacheConfig) (sched : List Nat) (h : doneAgree c) :
    doneAgree (cacheExec c sched) := by
  induction sched generalizing c with
  | nil => exact h
  | cons i rest ih => exact ih (cacheStep c i) (doneAgree_step c i h)

theorem doneAgree_init (n : Nat) : doneAgree (cacheInit n) := by
  have : ∀ (i s : Nat), (cacheInit n).threads[i]? = some (ThreadState.done s) →
      (cacheInit n).cache = some s := by
    intro i s hi
    simp only [cacheInit] at hi
    have := List.getElem?_mem hi
    have := List.eq_of_mem_replicate this
    cases this
  exact this

/-! ## Concrete instantiations of the abstracted primitives, used by the
closed evaluation theorems.  Any concrete functions are admissible there:
the general theorems hold for every `hash`/`mac`/`encode`/`decode`. -/

/-- Concrete stand-in for the base64url HMAC-SHA256 signer. -/
def testMac : String → String := fun s => "m" ++ s

/-- Concrete stand-in for the base64url SHA-256 PKCE hash. -/
def testHash : String → String := fun s => "h" ++ s

/-- Concrete stand-in for claims encoding. -/
def testEncode : Claims → String := fun _ => "P"

/-- Concrete stand-in for payload decoding: payload "P" carries a subject
and a numeric `exp` of 50; payload "Q" carries only a subject. -/
def testDecode : String → Option Claims := fun s =>
  if s = "P" then some [("sub", .str "alice"), ("exp", .num 50)]
  else if s = "Q" then some [("sub", .str "alice")]
  else none

/-- Whether decoded claims carry a numeric `exp` (the only shape Go's
`claims["exp"].(float64)` assertion accepts). -/
def hasNumericExp (claims : Claims) : Bool :=
  match mapLookup claims "exp" with
  | some (.num _) => true
  | _ => false

end ThingsCloudMCP

deriving instance DecidableEq for Except

namespace ThingsCloudMCP

/-! ## Claim C4: bad signature and past expiry both fail ResolveBearer -/

/-- C4: a token whose third (signature) part differs from the MAC of
`header.payload` makes `ResolveBearer` return an error (totality of the
Lean function shows there is no crash); and a token whose signature is
valid but whose decoded claims carry a numeric `exp` strictly before `now`
also makes `ResolveBearer` return an error. -/
theorem ResolveBearer_rejects_bad_sig_and_expired (mac : String → String)
    (decode : String → Option Claims) (now : Int)
    (credentials : List (String × String)) :
    (∀ token h p s, splitN3 token = [h, p, s] → s ≠ mac (h ++ "." ++ p) →
      ResolveBearer mac decode now credentials token =
        .error "invalid token: invalid JWT signature") ∧
    (∀ token h p s claims e, splitN3 token = [h, p, s] → s = mac (h ++ "." ++ p) →
      decode p = some claims → mapLookup claims "exp" = some (.num e) → e < now →
      ResolveBearer mac decode now credentials token =
        .error "invalid token: JWT expired") := by
  constructor
  · intro token h p s hsplit hneq
    have hparse : parseJWT mac decode now token = .error "invalid JWT signature" := by
      unfold parseJWT
      rw [hsplit]
      simp only []
      rw [if_pos hneq]
    unfold ResolveBearer
    rw [hparse]
    rfl
  · intro token h p s claims e hsplit hsig hdec hexp hlt
    have hparse : parseJWT mac decode now token = .error "JWT expired" := by
      unfold parseJWT
      rw [hsplit]
      simp only []
      rw [if_neg (by simpa using hsig), hdec]
      simp only []
      rw [hexp]
      simp only []
      rw [if_pos hlt]
    unfold ResolveBearer
    rw [hparse]
    rfl

/-- Closed witness for C4 at concrete inputs: the token "a.P.x" has a wrong
signature ("ma.P" expected), and "a.P.ma.P" is correctly signed but its
`exp` of 50 lies before `now = 100`. -/
theorem ResolveBearer_rejects_bad_sig_and_expired_witness :
    ResolveBearer testMac testDecode 100 [("alice", "pw")] "a.P.x" =
      .error "invalid token: invalid JWT signature" ∧
    ResolveBearer testMac testDecode 100 [("alice", "pw")] "a.P.ma.P" =
      .error "invalid token: JWT expired" := by
  constructor
  · exact (ResolveBearer_rejects_bad_sig_and_expired testMac testDecode 100
      [("alice", "pw")]).1 "a.P.x" "a" "P" "x" (by decide) (by decide)
  · exact (ResolveBearer_rejects_bad_sig_and_expired testMac testDecode 100
      [("alice", "pw")]).2 "a.P.ma.P" "a" "P" "ma.P"
      [("sub", .str "alice"), ("exp", .num 50)] 50
      (by decide) (by decide) (by decide) (by decide) (by decide)

/-! ## Claim C5: uniformity of verification failures (refuted) -/

/-- Counterexample to C5: the three failure causes produce three pairwise
distinct error values, so the verification failure is not uniform and does
reveal which check failed. -/
theorem parseJWT_failures_not_uniform :
    parseJWT testMac testDecode 100 "ab" = .error "invalid JWT format" ∧
    parseJWT testMac testDecode 100 "a.P.x" = .error "invalid JWT signature" ∧
    parseJWT testMac testDecode 100 "a.P.ma.P" = .error "JWT expired" ∧
    ("invalid JWT format" ≠ "invalid JWT signature" ∧
     "invalid JWT format" ≠ "JWT expired" ∧
     "invalid JWT signature" ≠ "JWT expired") := by
  refine ⟨by decide, by decide, by decide, by decide, by decide, by decide⟩

/-- C5 as amended: each of the three failure causes — malformed three-part
structure, signature mismatch, expired `exp` — produces a verification
failure, but the failures carry distinct messages naming the failed check
("invalid JWT format", "invalid JWT signature", "JWT expired"). -/
theorem parseJWT_failure_messages (mac : String → String)
    (decode : String → Option Claims) (now : Int) :
    (∀ token parts, splitN3 token = parts → parts.length ≠ 3 →
      parseJWT mac decode now token = .error "invalid JWT format") ∧
    (∀ token h p s, splitN3 token = [h, p, s] → s ≠ mac (h ++ "." ++ p) →
      parseJWT mac decode now token = .error "invalid JWT signature") ∧
    (∀ token h p s claims e, splitN3 token = [h, p, s] → s = mac (h ++ "." ++ p) →
      decode p = some claims → mapLookup claims "exp" = some (.num e) → e < now →
      parseJWT mac decode now token = .error "JWT expired") ∧
    ("invalid JWT format" ≠ "invalid JWT signature" ∧
     "invalid JWT format" ≠ "JWT expired" ∧
     "invalid JWT signature" ≠ "JWT expired") := by
  refine ⟨?_, ?_, ?_, by decide, by decide, by decide⟩
  · intro token parts hsplit hlen
    unfold parseJWT
    rw [hsplit]
    match parts, hlen with
    | [], _ => rfl
    | [a], _ => rfl
    | [a, b], _ => rfl
    | [a, b, c], hlen => exact absurd rfl hlen
    | a :: b :: c :: d :: rest, _ => rfl
  · intro token h p s hsplit hneq
    unfold parseJWT
    rw [hsplit]
    simp only []
    rw [if_pos hneq]
  · intro token h p s claims e hsplit hsig hdec hexp hlt
    unfold parseJWT
    rw [hsplit]
    simp only []
    rw [if_neg (by simpa using hsig), hdec]
    simp only []
    rw [hexp]
    simp only []
    rw [if_pos hlt]

/-- Closed witness for the amended C5 at concrete inputs covering all three
failure causes. -/
theorem parseJWT_failure_messages_witness :
    parseJWT testMac testDecode 100 "ab" = .error "invalid JWT format" ∧
    parseJWT testMac testDecode 100 "a.P.x" = .error "invalid JWT signature" ∧
    parseJWT testMac testDecode 100 "a.P.ma.P" = .error "JWT expired" := by
  refine ⟨?_, ?_, ?_⟩
  · exact (parseJWT_failure_messages testMac testDecode 100).1 "ab" ["ab"]
      (by decide) (by decide)
  · exact (parseJWT_failure_messages testMac testDecode 100).2.1 "a.P.x" "a" "P" "x"
      (by decide) (by decide)
  · exact (parseJWT_failure_messages testMac testDecode 100).2.2.1 "a.P.ma.P"
      "a" "P" "ma.P" [("sub", .str "alice"), ("exp", .num 50)] 50
      (by decide) (by decide) (by decide) (by decide) (by decide)

/-! ## Claim C10: a correctly signed token without numeric exp never expires -/

/-- C10: a correctly signed three-part token whose decoded claims hold no
numeric `exp` skips the expiry check entirely, so when its `sub` names a
tenant with a present credential entry, `ResolveBearer` succeeds at every
`now` whatsoever. -/
theorem ResolveBearer_no_numeric_exp_never_expires (mac : String → String)
    (decode : String → Option Claims) (credentials : List (String × String))
    (token h p s : String) (claims : Claims) (email password : String)
    (hsplit : splitN3 token = [h, p, s])
    (hsig : s = mac (h ++ "." ++ p))
    (hdec : decode p = some claims)
    (hexp : hasNumericExp claims = false)
    (hsub : mapLookup claims "sub" = some (.str email))
    (hemail : email ≠ "")
    (hcred : mapLookup credentials email = some password) :
    ∀ now : Int, ResolveBearer mac decode now credentials token = .ok (email, password) := by
  intro now
  have hparse : parseJWT mac decode now token = .ok claims := by
    unfold parseJWT
    rw [hsplit]
    simp only []
    rw [if_neg (by simpa using hsig), hdec]
    simp only []
    unfold hasNumericExp at hexp
    rcases hlk : mapLookup claims "exp" with _ | v
    · rfl
    · cases v with
      | str s1 => rfl
      | num n =>
        rw [hlk] at hexp
        simp at hexp
  unfold ResolveBearer
  rw [hparse]
  simp only []
  rw [hsub]
  simp only []
  rw [if_neg hemail, hcred]

/-- Closed witness for C10: the correctly signed token "a.Q.ma.Q" has no
`exp` claim and resolves to alice's stored credentials even at a very late
`now`. -/
theorem ResolveBearer_no_numeric_exp_never_expires_witness :
    ResolveBearer testMac testDecode 1000000000000 [("alice", "pw")] "a.Q.ma.Q" =
      .ok ("alice", "pw") :=
  ResolveBearer_no_numeric_exp_never_expires testMac testDecode [("alice", "pw")]
    "a.Q.ma.Q" "a" "Q" "ma.Q" [("sub", .str "alice")] "alice" "pw"
    (by decide) (by decide) (by decide) (by decide) (by decide) (by decide) (by decide)
    1000000000000

/-! ## Claim C8: cached sessions are returned without password re-check -/

/-- C8: when `email` is already cached, `GetOrCreateUser` returns the cached
session unchanged for every password and every factory — the password is
neither compared nor re-verified — so a correct and a wrong password receive
the same session instance. -/
theorem GetOrCreateUser_ignores_password (factory : String → String → Option Nat)
    (users : List (String × Nat)) (email p1 p2 : String) (t : Nat)
    (hcached : mapLookup users email = some t) :
    GetOrCreateUser factory users email p1 = (users, some t) ∧
    GetOrCreateUser factory users email p2 = (users, some t) := by
  constructor <;> (unfold GetOrCreateUser; rw [hcached])

/-- Closed witness for C8: with alice cached, a factory that always fails is
never consulted and both the right and the wrong password get session 7. -/
theorem GetOrCreateUser_ignores_password_witness :
    GetOrCreateUser (fun _ _ => none) [("alice", 7)] "alice" "right-pw" = ([("alice", 7)], some 7) ∧
    GetOrCreateUser (fun _ _ => none) [("alice", 7)] "alice" "wrong-pw" = ([("alice", 7)], some 7) :=
  GetOrCreateUser_ignores_password (fun _ _ => none) [("alice", 7)] "alice"
    "right-pw" "wrong-pw" 7 (by decide)

/-! ## Claims C1 and C3: authorization_code grant -/

/-- All validation steps of the `authorization_code` grant pass for `req`
against state `o` at time `now`: the code exists, is unused and unexpired,
the client and redirect URI match, and PKCE verifies. -/
def authCodeGrantValid (hash : String → String) (now : Int) (o : OAuthServer)
    (req : TokenRequest) : Bool :=
  match mapLookup o.authCodes req.code with
  | none => false
  | some ac =>
    !ac.used && !(decide (now > ac.expiresAt)) && (ac.clientID == req.client_id)
      && (ac.redirectURI == req.redirect_uri)
      && verifyPKCE hash req.code_verifier ac.codeChallenge

/-- Computation lemma: the fully validated `authorization_code` exchange
marks the code used, stores the credentials, installs the new refresh token
and returns HTTP 200 with the signed access token. -/
theorem handleAuthCodeGrant_success_eq (hash mac : String → String)
    (encode : Claims → String) (now : Int) (newTok base : String)
    (o : OAuthServer) (req : TokenRequest) (ac : AuthCode)
    (hc : req.code ≠ "") (h1 : req.client_id ≠ "") (h2 : req.redirect_uri ≠ "")
    (h3 : req.code_verifier ≠ "")
    (hlk : mapLookup o.authCodes req.code = some ac)
    (hused : ac.used = false)
    (hexp : ¬ now > ac.expiresAt)
    (hcli : ac.clientID = req.client_id)
    (huri : ac.redirectURI = req.redirect_uri)
    (hpkce : hash req.code_verifier = ac.codeChallenge) :
    handleAuthCodeGrant hash mac encode now newTok base o req =
      ({ o with
         authCodes := mapInsert o.authCodes req.code { ac with used := true },
         credentials := mapInsert o.credentials ac.email ac.password,
         refreshTokens := mapInsert o.refreshTokens newTok
           { token := newTok, email := ac.email, password := ac.password,
             clientID := req.client_id, expiresAt := now + 2592000 } },
       .ok 200
         { access_token := createJWT mac encode (accessClaims ac.email base now),
           token_type := "Bearer", expires_in := 3600,
           refresh_token := newTok, scope := "things:manage" }) := by
  unfold handleAuthCodeGrant
  rw [if_neg (by simp [hc, h1, h2, h3]), hlk]
  simp only []
  rw [if_neg (by simp [hused]), if_neg hexp, if_neg (by simp [hcli]),
      if_neg (by simp [huri]), if_neg (by simp [verifyPKCE, hpkce])]

/-- C1: an exchange presenting the code with the matching client, the
exactly matching redirect URI and a verifier hashing to the stored
challenge succeeds (HTTP 200 with an access token and a refresh token) the
first time, and every subsequent exchange presenting the same code answers
`invalid_grant`. -/
theorem authCodeGrant_succeeds_exactly_once (hash mac : String → String)
    (encode : Claims → String) (now now2 : Int) (newTok newTok2 base base2 : String)
    (o : OAuthServer) (req req2 : TokenRequest) (ac : AuthCode)
    (hc : req.code ≠ "") (h1 : req.client_id ≠ "") (h2 : req.redirect_uri ≠ "")
    (h3 : req.code_verifier ≠ "")
    (hlk : mapLookup o.authCodes req.code = some ac)
    (hused : ac.used = false)
    (hexp : ¬ now > ac.expiresAt)
    (hcli : ac.clientID = req.client_id)
    (huri : ac.redirectURI = req.redirect_uri)
    (hpkce : hash req.code_verifier = ac.codeChallenge)
    (hr1 : req2.code = req.code) (hr2 : req2.client_id ≠ "")
    (hr3 : req2.redirect_uri ≠ "") (hr4 : req2.code_verifier ≠ "") :
    (handleAuthCodeGrant hash mac encode now newTok base o req).2 =
      .ok 200
        { access_token := createJWT mac encode (accessClaims ac.email base now),
          token_type := "Bearer", expires_in := 3600,
          refresh_token := newTok, scope := "things:manage" } ∧
    (handleAuthCodeGrant hash mac encode now2 newTok2 base2
        (handleAuthCodeGrant hash mac encode now newTok base o req).1 req2).2 =
      .err 400 "invalid_grant" "authorization code already used" := by
  have hrun := handleAuthCodeGrant_success_eq hash mac encode now newTok base o req ac
    hc h1 h2 h3 hlk hused hexp hcli huri hpkce
  constructor
  · rw [hrun]
  · rw [hrun]
    unfold handleAuthCodeGrant
    rw [if_neg (by simp [hr1, hc, hr2, hr3, hr4])]
    simp only [hr1]
    rw [mapLookup_insert_self]
    rfl

/-- Closed witness for C1 on a concrete one-code state. -/
theorem authCodeGrant_succeeds_exactly_once_witness :
    (handleAuthCodeGrant testHash testMac testEncode 10 "rt1" "https://srv"
        { clients := [], authCodes := [("c1",
            { code := "c1", clientID := "app", redirectURI := "https://app/cb",
              email := "alice", password := "pw", codeChallenge := "hver",
              expiresAt := 600, used := false })],
          refreshTokens := [], credentials := [] }
        { code := "c1", client_id := "app", redirect_uri := "https://app/cb",
          code_verifier := "ver" }).2 =
      .ok 200
        { access_token := createJWT testMac testEncode (accessClaims "alice" "https://srv" 10),
          token_type := "Bearer", expires_in := 3600,
          refresh_token := "rt1", scope := "things:manage" } ∧
    (handleAuthCodeGrant testHash testMac testEncode 20 "rt2" "https://srv"
        (handleAuthCodeGrant testHash testMac testEncode 10 "rt1" "https://srv"
          { clients := [], authCodes := [("c1",
              { code := "c1", clientID := "app", redirectURI := "https://app/cb",
                email := "alice", password := "pw", codeChallenge := "hver",
                expiresAt := 600, used := false })],
            refreshTokens := [], credentials := [] }
          { code := "c1", client_id := "app", redirect_uri := "https://app/cb",
            code_verifier := "ver" }).1
        { code := "c1", client_id := "app", redirect_uri := "https://app/cb",
          code_verifier := "ver" }).2 =
      .err 400 "invalid_grant" "authorization code already used" :=
  authCodeGrant_succeeds_exactly_once testHash testMac testEncode 10 20 "rt1" "rt2"
    "https://srv" "https://srv"
    { clients := [], authCodes := [("c1",
        { code := "c1", clientID := "app", redirectURI := "https://app/cb",
          email := "alice", password := "pw", codeChallenge := "hver",
          expiresAt := 600, used := false })],
      refreshTokens := [], credentials := [] }
    { code := "c1", client_id := "app", redirect_uri := "https://app/cb",
      code_verifier := "ver" }
    { code := "c1", client_id := "app", redirect_uri := "https://app/cb",
      code_verifier := "ver" }
    { code := "c1", clientID := "app", redirectURI := "https://app/cb",
      email := "alice", password := "pw", codeChallenge := "hver",
      expiresAt := 600, used := false }
    (by decide) (by decide) (by decide) (by decide) (by decide) (by decide)
    (by decide) (by decide) (by decide) (by decide) (by decide) (by decide)
    (by decide) (by decide)

/-- C3: an `authorization_code` exchange that fails any validation step
(unknown code, code already used, code expired, client mismatch, redirect
mismatch or PKCE failure) answers `invalid_grant` with HTTP 400 and leaves
the whole server state — auth codes, refresh tokens and credentials —
untouched; in particular a PKCE mismatch does not mark the code used. -/
theorem authCodeGrant_failure_is_pure (hash mac : String → String)
    (encode : Claims → String) (now : Int) (newTok base : String)
    (o : OAuthServer) (req : TokenRequest)
    (hc : req.code ≠ "") (h1 : req.client_id ≠ "") (h2 : req.redirect_uri ≠ "")
    (h3 : req.code_verifier ≠ "")
    (hfail : authCodeGrantValid hash now o req = false) :
    ∃ desc, handleAuthCodeGrant hash mac encode now newTok base o req =
      (o, .err 400 "invalid_grant" desc) := by
  unfold handleAuthCodeGrant
  rw [if_neg (by simp [hc, h1, h2, h3])]
  unfold authCodeGrantValid at hfail
  rcases hlk : mapLookup o.authCodes req.code with _ | ac
  · exact ⟨"unknown authorization code", rfl⟩
  · rw [hlk] at hfail
    simp only []
    by_cases hu : ac.used = true
    · rw [if_pos hu]
      exact ⟨"authorization code already used", rfl⟩
    · rw [if_neg hu]
      by_cases he : now > ac.expiresAt
      · rw [if_pos he]
        exact ⟨"authorization code expired", rfl⟩
      · rw [if_neg he]
        by_cases hcl : ac.clientID ≠ req.client_id
        · rw [if_pos hcl]
          exact ⟨"client_id mismatch", rfl⟩
        · rw [if_neg hcl]
          by_cases hre : ac.redirectURI ≠ req.redirect_uri
          · rw [if_pos hre]
            exact ⟨"redirect_uri mismatch", rfl⟩
          · rw [if_neg hre]
            by_cases hpk : verifyPKCE hash req.code_verifier ac.codeChallenge = true
            · exfalso
              have hu2 : ac.used = false := by
                cases hb : ac.used
                · rfl
                · exact absurd hb hu
              simp only [hu2, decide_eq_false he, not_not.mp hcl, not_not.mp hre,
                hpk] at hfail
              simp at hfail
            · rw [if_pos (by simpa using hpk)]
              exact ⟨"PKCE verification failed", rfl⟩

/-- Closed witness for C3: a PKCE mismatch answers `invalid_grant` and the
state (in particular the code's `used = false` flag) survives unchanged. -/
theorem authCodeGrant_failure_is_pure_witness :
    ∃ desc, handleAuthCodeGrant testHash testMac testEncode 10 "rt1" "https://srv"
      { clients := [], authCodes := [("c1",
          { code := "c1", clientID := "app", redirectURI := "https://app/cb",
            email := "alice", password := "pw", codeChallenge := "other",
            expiresAt := 600, used := false })],
        refreshTokens := [], credentials := [] }
      { code := "c1", client_id := "app", redirect_uri := "https://app/cb",
        code_verifier := "ver" } =
      ({ clients := [], authCodes := [("c1",
           { code := "c1", clientID := "app", redirectURI := "https://app/cb",
             email := "alice", password := "pw", codeChallenge := "other",
             expiresAt := 600, used := false })],
         refreshTokens := [], credentials := [] },
       .err 400 "invalid_grant" desc) :=
  authCodeGrant_failure_is_pure testHash testMac testEncode 10 "rt1" "https://srv"
    { clients := [], authCodes := [("c1",
        { code := "c1", clientID := "app", redirectURI := "https://app/cb",
          email := "alice", password := "pw", codeChallenge := "other",
          expiresAt := 600, used := false })],
      refreshTokens := [], credentials := [] }
    { code := "c1", client_id := "app", redirect_uri := "https://app/cb",
      code_verifier := "ver" }
    (by decide) (by decide) (by decide) (by decide) (by decide)

/-! ## Claim C2: refresh-token rotation -/

/-- Computation lemma: a refresh grant presenting a stored, unexpired token
deletes it, stores the credentials, installs the rotated token and returns
HTTP 200. -/
theorem handleRefreshTokenGrant_success_eq (mac : String → String)
    (encode : Claims → String) (now : Int) (newTok base : String)
    (o : OAuthServer) (tok : String) (rt : RefreshToken)
    (htok : tok ≠ "")
    (hlk : mapLookup o.refreshTokens tok = some rt)
    (hexp : ¬ now > rt.expiresAt) :
    handleRefreshTokenGrant mac encode now newTok base o tok =
      ({ o with
         refreshTokens := mapInsert (mapErase o.refreshTokens tok) newTok
           { token := newTok, email := rt.email, password := rt.password,
             clientID := rt.clientID, expiresAt := now + 2592000 },
         credentials := mapInsert o.credentials rt.email rt.password },
       .ok 200
         { access_token := createJWT mac encode (accessClaims rt.email base now),
           token_type := "Bearer", expires_in := 3600,
           refresh_token := newTok, scope := "things:manage" }) := by
  unfold handleRefreshTokenGrant
  rw [if_neg htok, hlk]
  simp only []
  rw [if_neg hexp]

/-- C2: a refresh grant presenting a stored token before its expiry
succeeds exactly once — the presented token is deleted, a rotated token
bound to the same tenant and client is stored, a later attempt with the old
token answers `invalid_grant`, and the rotated token itself succeeds once
and is deleted in turn, so a further attempt with it answers
`invalid_grant` as well. -/
theorem refreshTokenGrant_rotates (mac : String → String)
    (encode : Claims → String) (now now2 now3 now4 : Int)
    (tok newTok newTok2 newTok3 base base2 base3 base4 : String)
    (o : OAuthServer) (rt : RefreshToken)
    (htok : tok ≠ "")
    (hlk : mapLookup o.refreshTokens tok = some rt)
    (hexp : ¬ now > rt.expiresAt)
    (hnewE : newTok ≠ "")
    (hnewtok : newTok ≠ tok)
    (hexp2 : ¬ now2 > now + 2592000)
    (hnew2 : newTok2 ≠ newTok) :
    ∃ st1, handleRefreshTokenGrant mac encode now newTok base o tok =
      (st1, .ok 200
        { access_token := createJWT mac encode (accessClaims rt.email base now),
          token_type := "Bearer", expires_in := 3600,
          refresh_token := newTok, scope := "things:manage" }) ∧
      mapLookup st1.refreshTokens tok = none ∧
      mapLookup st1.refreshTokens newTok = some
        { token := newTok, email := rt.email, password := rt.password,
          clientID := rt.clientID, expiresAt := now + 2592000 } ∧
      (handleRefreshTokenGrant mac encode now3 newTok2 base2 st1 tok).2 =
        .err 400 "invalid_grant" "unknown refresh token" ∧
      ∃ st3, handleRefreshTokenGrant mac encode now2 newTok2 base3 st1 newTok =
        (st3, .ok 200
          { access_token := createJWT mac encode (accessClaims rt.email base3 now2),
            token_type := "Bearer", expires_in := 3600,
            refresh_token := newTok2, scope := "things:manage" }) ∧
        mapLookup st3.refreshTokens newTok = none ∧
        (handleRefreshTokenGrant mac encode now4 newTok3 base4 st3 newTok).2 =
          .err 400 "invalid_grant" "unknown refresh token" := by
  have h1run := handleRefreshTokenGrant_success_eq mac encode now newTok base o tok rt
    htok hlk hexp
  refine ⟨_, h1run, ?_, ?_, ?_, ?_⟩
  · rw [mapLookup_insert_ne _ _ _ _ hnewtok, mapLookup_erase_self]
  · exact mapLookup_insert_self _ _ _
  · unfold handleRefreshTokenGrant
    rw [if_neg htok, mapLookup_insert_ne _ _ _ _ hnewtok, mapLookup_erase_self]
  · have hlk1 : mapLookup (mapInsert (mapErase o.refreshTokens tok) newTok
        { token := newTok, email := rt.email, password := rt.password,
          clientID := rt.clientID, expiresAt := now + 2592000 }) newTok = some
        { token := newTok, email := rt.email, password := rt.password,
          clientID := rt.clientID, expiresAt := now + 2592000 } :=
      mapLookup_insert_self _ _ _
    have h2run := handleRefreshTokenGrant_success_eq mac encode now2 newTok2 base3
      { o with
        refreshTokens := mapInsert (mapErase o.refreshTokens tok) newTok
          { token := newTok, email := rt.email, password := rt.password,
            clientID := rt.clientID, expiresAt := now + 2592000 },
        credentials := mapInsert o.credentials rt.email rt.password }
      newTok
      { token := newTok, email := rt.email, password := rt.password,
        clientID := rt.clientID, expiresAt := now + 2592000 }
      hnewE hlk1 hexp2
    refine ⟨_, h2run, ?_, ?_⟩
    · rw [mapLookup_insert_ne _ _ _ _ hnew2, mapLookup_erase_self]
    · unfold handleRefreshTokenGrant
      rw [if_neg hnewE, mapLookup_insert_ne _ _ _ _ hnew2, mapLookup_erase_self]

/-- Closed witness for C2 on a concrete one-token state. -/
theorem refreshTokenGrant_rotates_witness :
    ∃ st1, handleRefreshTokenGrant testMac testEncode 10 "r2" "https://srv"
      { clients := [], authCodes := [],
        refreshTokens := [("r1",
          { token := "r1", email := "alice", password := "pw",
            clientID := "app", expiresAt := 1000 })],
        credentials := [] } "r1" =
      (st1, .ok 200
        { access_token := createJWT testMac testEncode (accessClaims "alice" "https://srv" 10),
          token_type := "Bearer", expires_in := 3600,
          refresh_token := "r2", scope := "things:manage" }) ∧
      mapLookup st1.refreshTokens "r1" = none ∧
      mapLookup st1.refreshTokens "r2" = some
        { token := "r2", email := "alice", password := "pw",
          clientID := "app", expiresAt := 10 + 2592000 } ∧
      (handleRefreshTokenGrant testMac testEncode 30 "r3" "https://srv" st1 "r1").2 =
        .err 400 "invalid_grant" "unknown refresh token" ∧
      ∃ st3, handleRefreshTokenGrant testMac testEncode 20 "r3" "https://srv2" st1 "r2" =
        (st3, .ok 200
          { access_token := createJWT testMac testEncode (accessClaims "alice" "https://srv2" 20),
            token_type := "Bearer", expires_in := 3600,
            refresh_token := "r3", scope := "things:manage" }) ∧
        mapLookup st3.refreshTokens "r2" = none ∧
        (handleRefreshTokenGrant testMac testEncode 40 "r4" "https://srv3" st3 "r2").2 =
          .err 400 "invalid_grant" "unknown refresh token" :=
  refreshTokenGrant_rotates testMac testEncode 10 20 30 40 "r1" "r2" "r3" "r4"
    "https://srv" "https://srv" "https://srv2" "https://srv3"
    { clients := [], authCodes := [],
      refreshTokens := [("r1",
        { token := "r1", email := "alice", password := "pw",
          clientID := "app", expiresAt := 1000 })],
      credentials := [] }
    { token := "r1", email := "alice", password := "pw",
      clientID := "app", expiresAt := 1000 }
    (by decide) (by decide) (by decide) (by decide) (by decide) (by decide) (by decide)

/-! ## Claim C6: successful POST /authorize -/

/-- C6: when the submitted credentials pass backend verification,
POST /authorize stores an authorization code record binding the query's
client, redirect URI and challenge, with a ten-minute expiry and
`used = false`, writes the tenant's credential entry, and sends the user
agent to the redirect URI carrying `code` and `state` (for a redirect URI
without a query string, literally `redirectURI?code=...&state=...`). -/
theorem authorizePost_success_stores_code (verify : String → String → Bool)
    (now : Int) (code : String) (o : OAuthServer) (req : AuthorizeRequest)
    (hemail : req.email ≠ "") (hpw : req.password ≠ "")
    (hver : verify req.email req.password = true) :
    handleAuthorizePost verify now code o req =
      ({ o with
         authCodes := mapInsert o.authCodes code (
           { code := code, clientID := req.client_id, redirectURI := req.redirect_uri,
             email := req.email, password := req.password,
             codeChallenge := req.code_challenge, expiresAt := now + 600,
             used := false } : AuthCode),
         credentials := mapInsert o.credentials req.email req.password },
       .successPage (req.redirect_uri ++
         (if stringContains req.redirect_uri '?' then "&" else "?") ++
         "code=" ++ code ++ "&state=" ++ req.state)) ∧
    (stringContains req.redirect_uri '?' = false →
      (handleAuthorizePost verify now code o req).2 =
        .successPage (req.redirect_uri ++ "?code=" ++ code ++ "&state=" ++ req.state)) := by
  have hrun : handleAuthorizePost verify now code o req =
      ({ o with
         authCodes := mapInsert o.authCodes code (
           { code := code, clientID := req.client_id, redirectURI := req.redirect_uri,
             email := req.email, password := req.password,
             codeChallenge := req.code_challenge, expiresAt := now + 600,
             used := false } : AuthCode),
         credentials := mapInsert o.credentials req.email req.password },
       .successPage (req.redirect_uri ++
         (if stringContains req.redirect_uri '?' then "&" else "?") ++
         "code=" ++ code ++ "&state=" ++ req.state)) := by
    unfold handleAuthorizePost
    rw [if_neg (by simp [hemail, hpw]), if_neg (by simp [hver])]
  refine ⟨hrun, fun hq => ?_⟩
  rw [hrun]
  simp only [hq, Bool.false_eq_true, if_false]
  have hx : req.redirect_uri ++ "?" ++ "code=" = req.redirect_uri ++ "?code=" := by
    rw [String.append_assoc]
    rfl
  rw [hx]

/-- Closed witness for C6 at a concrete request. -/
theorem authorizePost_success_stores_code_witness :
    handleAuthorizePost (fun e p => e == "alice" && p == "pw") 10 "c9"
      { clients := [], authCodes := [], refreshTokens := [], credentials := [] }
      { client_id := "app", redirect_uri := "https://app/cb", state := "xyz",
        code_challenge := "ch", email := "alice", password := "pw" } =
      ({ clients := [],
         authCodes := [("c9",
           { code := "c9", clientID := "app", redirectURI := "https://app/cb",
             email := "alice", password := "pw", codeChallenge := "ch",
             expiresAt := 610, used := false })],
         refreshTokens := [], credentials := [("alice", "pw")] },
       .successPage "https://app/cb?code=c9&state=xyz") := by
  have h := (authorizePost_success_stores_code (fun e p => e == "alice" && p == "pw")
    10 "c9" { clients := [], authCodes := [], refreshTokens := [], credentials := [] }
    { client_id := "app", redirect_uri := "https://app/cb", state := "xyz",
      code_challenge := "ch", email := "alice", password := "pw" }
    (by decide) (by decide) (by decide)).1
  rw [h]
  rfl

/-! ## Claim C9: POST /authorize skips client-registry validation -/

/-- C9: on a verified login, POST /authorize stores the code bound to the
query's client id, redirect URI and challenge, and delivers it toward that
redirect URI, even when the client id is entirely absent from the registry;
moreover the whole outcome (stored codes, stored credentials, rendered
result) is invariant under replacing the registry, which is consulted only
for a display name on the error paths. -/
theorem authorizePost_no_registry_validation (verify : String → String → Bool)
    (now : Int) (code : String) (o : OAuthServer) (req : AuthorizeRequest)
    (hunreg : mapLookup o.clients req.client_id = none)
    (hemail : req.email ≠ "") (hpw : req.password ≠ "")
    (hver : verify req.email req.password = true) :
    (handleAuthorizePost verify now code o req).2 =
      .successPage (req.redirect_uri ++
        (if stringContains req.redirect_uri '?' then "&" else "?") ++
        "code=" ++ code ++ "&state=" ++ req.state) ∧
    mapLookup (handleAuthorizePost verify now code o req).1.authCodes code =
      some { code := code, clientID := req.client_id, redirectURI := req.redirect_uri,
             email := req.email, password := req.password,
             codeChallenge := req.code_challenge, expiresAt := now + 600,
             used := false } ∧
    (∀ cs : List (String × OAuthClient),
      (handleAuthorizePost verify now code { o with clients := cs } req).1.authCodes =
        (handleAuthorizePost verify now code o req).1.authCodes ∧
      (handleAuthorizePost verify now code { o with clients := cs } req).1.credentials =
        (handleAuthorizePost verify now code o req).1.credentials ∧
      (handleAuthorizePost verify now code { o with clients := cs } req).2 =
        (handleAuthorizePost verify now code o req).2) := by
  have hbody : ∀ o1 : OAuthServer, handleAuthorizePost verify now code o1 req =
      ({ o1 with
         authCodes := mapInsert o1.authCodes code (
           { code := code, clientID := req.client_id, redirectURI := req.redirect_uri,
             email := req.email, password := req.password,
             codeChallenge := req.code_challenge, expiresAt := now + 600,
             used := false } : AuthCode),
         credentials := mapInsert o1.credentials req.email req.password },
       .successPage (req.redirect_uri ++
         (if stringContains req.redirect_uri '?' then "&" else "?") ++
         "code=" ++ code ++ "&state=" ++ req.state)) := by
    intro o1
    unfold handleAuthorizePost
    rw [if_neg (by simp [hemail, hpw]), if_neg (by simp [hver])]
  refine ⟨by rw [hbody o], ?_, fun cs => ?_⟩
  · rw [hbody o]
    exact mapLookup_insert_self _ _ _
  · rw [hbody o, hbody { o with clients := cs }]
    exact ⟨rfl, rfl, rfl⟩

/-- Closed witness for C9: the registry is empty (the client id is
unregistered) and the code is still stored and delivered. -/
theorem authorizePost_no_registry_validation_witness :
    (handleAuthorizePost (fun e p => e == "alice" && p == "pw") 10 "c9"
      { clients := [], authCodes := [], refreshTokens := [], credentials := [] }
      { client_id := "ghost", redirect_uri := "https://app/cb", state := "xyz",
        code_challenge := "ch", email := "alice", password := "pw" }).2 =
      .successPage ("https://app/cb" ++
        (if stringContains "https://app/cb" '?' then "&" else "?") ++
        "code=" ++ "c9" ++ "&state=" ++ "xyz") ∧
    mapLookup (handleAuthorizePost (fun e p => e == "alice" && p == "pw") 10 "c9"
      { clients := [], authCodes := [], refreshTokens := [], credentials := [] }
      { client_id := "ghost", redirect_uri := "https://app/cb", state := "xyz",
        code_challenge := "ch", email := "alice", password := "pw" }).1.authCodes "c9" =
      some { code := "c9", clientID := "ghost", redirectURI := "https://app/cb",
             email := "alice", password := "pw", codeChallenge := "ch",
             expiresAt := 610, used := false } := by
  have h := authorizePost_no_registry_validation (fun e p => e == "alice" && p == "pw")
    10 "c9" { clients := [], authCodes := [], refreshTokens := [], credentials := [] }
    { client_id := "ghost", redirect_uri := "https://app/cb", state := "xyz",
      code_challenge := "ch", email := "alice", password := "pw" }
    (by decide) (by decide) (by decide) (by decide)
  exact ⟨h.1, h.2.1⟩

/-! ## Claim C7: concurrent first access (refuted as stated, corrected) -/

/-- Counterexample to C7: under the interleaving in which both of two
simultaneous first-access callers pass the read-check before either
installs a session, the underlying construction runs twice, not exactly
once — although both callers still finish with the same session instance. -/
theorem concurrent_firstAccess_two_builds :
    (cacheExec (cacheInit 2) [0, 1, 0, 1]).builds = 2 ∧
    (cacheExec (cacheInit 2) [0, 1, 0, 1]).builds ≠ 1 ∧
    (cacheExec (cacheInit 2) [0, 1, 0, 1]).threads =
      [ThreadState.done 0, ThreadState.done 0] := by
  refine ⟨by decide, by decide, by decide⟩

/-- C7 as amended: for every number of simultaneous first-access callers
and every interleaving, all callers that finish receive one and the same
session instance — the one installed in the cache — though the underlying
construction may have run more than once (up to once per caller). -/
theorem concurrent_firstAccess_same_instance (n : Nat) (sched : List Nat)
    (i j si sj : Nat)
    (hi : (cacheExec (cacheInit n) sched).threads[i]? = some (ThreadState.done si))
    (hj : (cacheExec (cacheInit n) sched).threads[j]? = some (ThreadState.done sj)) :
    si = sj ∧ (cacheExec (cacheInit n) sched).cache = some si := by
  have ha := doneAgree_exec (cacheInit n) sched (doneAgree_init n)
  have h1 := ha i si hi
  have h2 := ha j sj hj
  rw [h1] at h2
  cases h2
  exact ⟨rfl, h1⟩

/-- Closed witness for the amended C7 on the double-construction schedule:
both callers finish with session 0, which is the cached one. -/
theorem concurrent_firstAccess_same_instance_witness :
    (0 : Nat) = 0 ∧ (cacheExec (cacheInit 2) [0, 1, 0, 1]).cache = some 0 :=
  concurrent_firstAccess_same_instance 2 [0, 1, 0, 1] 0 1 0 0 (by decide) (by decide)

end ThingsCloudMCP
